import Mathlib

/-!
Shallow embedding of the ideai-web backend (`src/unnamed/part_001`, the later
revision of `server.js`): the persistence and domain-consistency layer over
two JSON-backed collections (users, projects).

Modelling conventions:
- Each HTTP handler becomes a pure function from its request data and the
  persisted collections to a response value and the new persisted collections.
  Persistence (`writeUsers` / `writeProjects`) is modelled by the returned
  collection; a handler path that never calls the write function returns the
  input collection unchanged.
- Nondeterministic inputs of the handler (`Date.now().toString()`,
  `new Date().toISOString()`, the bcrypt hash of the password) are passed to
  the function as explicit string parameters; `bcrypt.compare` is passed as an
  opaque function `verify : String → String → Bool`.
- JS request fields destructured from the body are strings; for required
  fields, an absent field and the empty string are both falsy under `!x` and
  behave identically in every handler, so they are modelled as `""`. Optional
  fields with `||`-defaults are modelled as `Option` plus the JS falsy rule.
- `Array.prototype.find` / `findIndex` followed by an in-place update at the
  found index is modelled by a structurally recursive first-match traversal.
-/

/-- Characters matched by the `\s` class of the JS regex in `validateEmail`
(ASCII whitespace and no-break space; further exotic Unicode space characters
are irrelevant to every property proved here). -/
def isJsSpace (c : Char) : Bool :=
  c = ' ' || c = '\t' || c = '\n' || c = '\r' || c = '\x0b' || c = '\x0c' || c = ' '

/-- One `[^\s@]+` chunk of the email regex: non-empty, no whitespace, no `@`. -/
def emailChunkOk (l : List Char) : Bool :=
  !l.isEmpty && l.all (fun c => !isJsSpace c && c != '@')

/-- Split a character list at its first `'@'`, if any. -/
def splitAtFirstAmp : List Char → Option (List Char × List Char)
  | [] => none
  | c :: rest =>
    if c = '@' then some ([], rest)
    else
      match splitAtFirstAmp rest with
      | none => none
      | some (l, r) => some (c :: l, r)

/-- `validateEmail` from the source: the regex `^[^\s@]+@[^\s@]+\.[^\s@]+$`.
The string matches iff it splits at its unique `@` into a non-empty local part
and a domain part that is non-empty, free of whitespace and `@`, and contains a
`.` that is neither its first nor its last character (so that both `[^\s@]+`
chunks around the dot are non-empty). -/
def validateEmail (email : String) : Bool :=
  match splitAtFirstAmp email.toList with
  | none => false
  | some (lpart, dpart) =>
    emailChunkOk lpart && emailChunkOk dpart &&
      ((dpart.drop 1).dropLast.contains '.')

/-- `validatePassword` from the source: length at least 6. -/
def validatePassword (password : String) : Bool :=
  decide (password.length ≥ 6)

/-- The `profile` object created at signup and mutated by profile update. -/
structure Profile where
  bio : String
  skills : List String
  interests : List String
  location : String
  website : String
deriving DecidableEq

/-- A record of the users collection (`users.json`). `favorites` is `none`
when the user object has no `favorites` key (signup creates it without one;
the add-favorite handler initializes it lazily). -/
structure User where
  id : String
  firstname : String
  lastname : String
  username : String
  email : String
  password : String
  userType : String
  createdAt : String
  profile : Profile
  favorites : Option (List String)
deriving DecidableEq

/-- A record of the projects collection (`projects.json`), per the later
revision's create handler. -/
structure Project where
  id : String
  title : String
  description : String
  category : String
  funding : Int
  creator : String
  lookingForInvestment : Bool
  status : String
  createdAt : String
  investors : List String
  likes : Nat
deriving DecidableEq

/-- The status/success/message triple every handler response carries. -/
structure Resp where
  status : Nat
  success : Bool
  message : String
deriving DecidableEq

/-- Request body of `POST /api/signup`. -/
structure SignupReq where
  firstname : String
  lastname : String
  username : String
  email : String
  password : String
  userType : String
deriving DecidableEq

/-- The `user` object of a successful signup response, modelled as the JS
object literal it is: an association list of key/value pairs in source order
(`id`, `username`, `firstname`, `userType`). -/
def signupRespUser (u : User) : List (String × String) :=
  [("id", u.id), ("username", u.username), ("firstname", u.firstname),
   ("userType", u.userType)]

/-- The `newUser` object built by the signup handler. -/
def mkNewUser (req : SignupReq) (hashedPassword newId now : String) : User :=
  { id := newId
    firstname := req.firstname
    lastname := req.lastname
    username := req.username
    email := req.email
    password := hashedPassword
    userType := req.userType
    createdAt := now
    profile := { bio := "", skills := [], interests := [], location := "", website := "" }
    favorites := none }

/-- `users.find(u => u.username === username)` truthiness. -/
def existsUsername (username : String) (users : List User) : Bool :=
  users.any (fun u => u.username == username)

/-- `users.find(u => u.email === email)` truthiness. -/
def existsEmail (email : String) (users : List User) : Bool :=
  users.any (fun u => u.email == email)

/-- Result of the signup handler: response triple plus the optional `user`
payload object. -/
structure SignupResult where
  resp : Resp
  user : Option (List (String × String))
deriving DecidableEq

/-- The `POST /api/signup` handler. -/
def signup (req : SignupReq) (hashedPassword newId now : String)
    (users : List User) : SignupResult × List User :=
  if req.firstname = "" ∨ req.lastname = "" ∨ req.username = "" ∨ req.email = "" ∨
      req.password = "" ∨ req.userType = "" then
    (⟨⟨400, false, "All fields are required."⟩, none⟩, users)
  else if validateEmail req.email = false then
    (⟨⟨400, false, "Please enter a valid email address."⟩, none⟩, users)
  else if validatePassword req.password = false then
    (⟨⟨400, false, "Password must be at least 6 characters long."⟩, none⟩, users)
  else if req.userType ≠ "entrepreneur" ∧ req.userType ≠ "investor" then
    (⟨⟨400, false, "User type must be either entrepreneur or investor."⟩, none⟩, users)
  else if existsUsername req.username users then
    (⟨⟨409, false, "Username already exists."⟩, none⟩, users)
  else if existsEmail req.email users then
    (⟨⟨409, false, "Email already exists."⟩, none⟩, users)
  else
    let newUser := mkNewUser req hashedPassword newId now
    (⟨⟨200, true, "User created successfully!"⟩, some (signupRespUser newUser)⟩,
     users ++ [newUser])

/-- The validation stage of signup as a predicate: all six fields non-empty,
email matches the regex, password length ≥ 6, userType is one of the two
allowed values. -/
def signupValid (r : SignupReq) : Prop :=
  r.firstname ≠ "" ∧ r.lastname ≠ "" ∧ r.username ≠ "" ∧ r.email ≠ "" ∧
  r.password ≠ "" ∧ r.userType ≠ "" ∧
  validateEmail r.email = true ∧ validatePassword r.password = true ∧
  (r.userType = "entrepreneur" ∨ r.userType = "investor")

instance (r : SignupReq) : Decidable (signupValid r) := by
  unfold signupValid
  infer_instance

/-- The `user` payload of a successful login response (no `password` field,
`profile` included). -/
structure LoginUser where
  id : String
  username : String
  firstname : String
  userType : String
  profile : Profile
deriving DecidableEq

/-- Result of the login handler. -/
structure LoginResult where
  resp : Resp
  user : Option LoginUser
deriving DecidableEq

/-- `users.find(u => u.username === usernameOrEmail || u.email === usernameOrEmail)`:
the first stored user matching by username or email. -/
def loginFind (usernameOrEmail : String) (users : List User) : Option User :=
  users.find? (fun u => u.username == usernameOrEmail || u.email == usernameOrEmail)

/-- The `POST /api/login` handler. `verify` is `bcrypt.compare`
(plaintext, stored hash). The handler never writes the collection; the
returned collection equals the input by construction, mirroring the absence
of any `writeUsers` call. -/
def login (verify : String → String → Bool) (usernameOrEmail password : String)
    (users : List User) : LoginResult × List User :=
  if usernameOrEmail = "" ∨ password = "" then
    (⟨⟨400, false, "All fields are required."⟩, none⟩, users)
  else
    match loginFind usernameOrEmail users with
    | none => (⟨⟨401, false, "User not found."⟩, none⟩, users)
    | some u =>
      if verify password u.password = false then
        (⟨⟨401, false, "Incorrect password."⟩, none⟩, users)
      else
        (⟨⟨200, true, "Login successful!"⟩,
          some ⟨u.id, u.username, u.firstname, u.userType, u.profile⟩⟩, users)

/-- The `profile` object of the `PUT /api/user/:username` request body: each
of the five profile keys is either present with a value or absent. -/
structure PartialProfile where
  bio : Option String
  skills : Option (List String)
  interests : Option (List String)
  location : Option String
  website : Option String
deriving DecidableEq

/-- The JS shallow spread `{ ...profile, ...partial }` over the five profile
keys: a key present in `partial` overwrites, an absent key retains the
existing value. -/
def mergeProfile (p : Profile) (pp : PartialProfile) : Profile :=
  { bio := pp.bio.getD p.bio
    skills := pp.skills.getD p.skills
    interests := pp.interests.getD p.interests
    location := pp.location.getD p.location
    website := pp.website.getD p.website }

/-- First-match traversal for `findIndex(u => u.username === username)` plus
the in-place `users[userIndex].profile = {...}` assignment: `none` when no
user matches (`findIndex === -1`). -/
def updateProfileCore (username : String) (pp : PartialProfile) :
    List User → Option (List User)
  | [] => none
  | u :: rest =>
    if u.username == username then
      some ({ u with profile := mergeProfile u.profile pp } :: rest)
    else
      match updateProfileCore username pp rest with
      | none => none
      | some rest2 => some (u :: rest2)

/-- The `PUT /api/user/:username` handler. -/
def updateProfile (username : String) (pp : PartialProfile)
    (users : List User) : Resp × List User :=
  match updateProfileCore username pp users with
  | none => (⟨404, false, "User not found."⟩, users)
  | some users2 => (⟨200, true, "Profile updated successfully!"⟩, users2)

/-- Request body of `POST /api/projects` (later revision): `title`,
`description`, `username` required; `category`, `funding`,
`lookingForInvestment` optional. -/
structure CreateProjectReq where
  title : String
  description : String
  username : String
  category : Option String
  funding : Option Int
  lookingForInvestment : Option Bool
deriving DecidableEq

/-- JS `x || d` for an optional string field: absent or empty gives the
default. -/
def jsOrStr (o : Option String) (d : String) : String :=
  match o with
  | none => d
  | some s => if s = "" then d else s

/-- JS `x || d` for an optional numeric field: absent or `0` gives the
default. -/
def jsOrInt (o : Option Int) (d : Int) : Int :=
  match o with
  | none => d
  | some n => if n = 0 then d else n

/-- JS `x || d` for an optional boolean field: absent or `false` gives the
default. -/
def jsOrBool (o : Option Bool) (d : Bool) : Bool :=
  match o with
  | none => d
  | some b => b || d

/-- The `newProject` object built by the project-create handler. -/
def mkNewProject (req : CreateProjectReq) (newId now : String) : Project :=
  { id := newId
    title := req.title
    description := req.description
    category := jsOrStr req.category "tech"
    funding := jsOrInt req.funding 0
    creator := req.username
    lookingForInvestment := jsOrBool req.lookingForInvestment false
    status := "active"
    createdAt := now
    investors := []
    likes := 0 }

/-- Result of the project-create handler. -/
structure CreateProjectResult where
  resp : Resp
  project : Option Project
deriving DecidableEq

/-- The `POST /api/projects` handler (later revision). Note it takes only the
projects collection: the source never reads the users collection here. -/
def createProject (req : CreateProjectReq) (newId now : String)
    (projects : List Project) : CreateProjectResult × List Project :=
  if req.title = "" ∨ req.description = "" ∨ req.username = "" then
    (⟨⟨400, false, "Title, description and username are required."⟩, none⟩, projects)
  else
    let newProject := mkNewProject req newId now
    (⟨⟨200, true, "Project created successfully!"⟩, some newProject⟩,
     projects ++ [newProject])

/-- First-match traversal for `findIndex(p => p.id === id)` plus the in-place
`projects[projectIndex].likes += 1`: returns the new count and the updated
list, or `none` when no project matches. -/
def likeList (id : String) : List Project → Option (Nat × List Project)
  | [] => none
  | p :: rest =>
    if p.id == id then some (p.likes + 1, { p with likes := p.likes + 1 } :: rest)
    else
      match likeList id rest with
      | none => none
      | some (n, rest2) => some (n, p :: rest2)

/-- Result of the like handler. -/
structure LikeResult where
  resp : Resp
  likes : Option Nat
deriving DecidableEq

/-- The `POST /api/projects/:id/like` handler. -/
def likeProject (id : String) (projects : List Project) :
    LikeResult × List Project :=
  match likeList id projects with
  | none => (⟨⟨404, false, "Project not found."⟩, none⟩, projects)
  | some (n, projects2) => (⟨⟨200, true, "Project liked!"⟩, some n⟩, projects2)

/-- First-match traversal for `findIndex(p => p.id === id)` plus
`projects.splice(projectIndex, 1)`: returns the found record and the list
with that record removed, or `none` when no project matches. -/
def removeFirstProject (id : String) : List Project → Option (Project × List Project)
  | [] => none
  | p :: rest =>
    if p.id == id then some (p, rest)
    else
      match removeFirstProject id rest with
      | none => none
      | some (q, rest2) => some (q, p :: rest2)

/-- The `DELETE /api/projects/:id` handler: username required, then NotFound,
then the creator-ownership check, then splice-and-persist. -/
def deleteProject (id username : String) (projects : List Project) :
    Resp × List Project :=
  if username = "" then
    (⟨400, false, "Username is required."⟩, projects)
  else
    match removeFirstProject id projects with
    | none => (⟨404, false, "Project not found."⟩, projects)
    | some (p, projects2) =>
      if p.creator ≠ username then
        (⟨403, false, "You can only delete your own projects."⟩, projects)
      else
        (⟨200, true, "Project deleted successfully!"⟩, projects2)

/-- The reduced demo-project shape hardcoded inside the add-favorite handler. -/
structure DemoProjectLite where
  id : String
  title : String
  category : String
deriving DecidableEq

/-- The `demoProjects` literal of the `POST /api/favorites` handler. -/
def demoProjectsForAdd : List DemoProjectLite :=
  [⟨"demo-1", "AI-Powered Health Platform", "health"⟩,
   ⟨"demo-2", "Online Education Portal", "education"⟩,
   ⟨"demo-3", "Finansal Danışmanlık Uygulaması", "finance"⟩,
   ⟨"demo-4", "Smart Home Automation System", "tech"⟩,
   ⟨"demo-5", "Dijital Kitaplık", "other"⟩,
   ⟨"demo-6", "Sağlıklı Yaşam Takipçisi", "health"⟩,
   ⟨"demo-7", "Çevrimiçi Mentorluk Platformu", "tech"⟩,
   ⟨"demo-8", "Çocuklar için Kodlama Atölyesi", "education"⟩]

/-- Truthiness of the `project` variable in the add-favorite handler after
both lookups: the id resolves to a real project or to a demo project. -/
def projectResolves (projectId : String) (projects : List Project) : Bool :=
  projects.any (fun p => p.id == projectId) ||
    demoProjectsForAdd.any (fun d => d.id == projectId)

/-- Outcome of the favorites-membership part of the add-favorite handler. -/
inductive FavAddOutcome where
  | noUser : FavAddOutcome
  | duplicate : FavAddOutcome
  | added : List User → FavAddOutcome
deriving DecidableEq

/-- First-match traversal for `findIndex(u => u.username === username)` plus
the lazy `favorites = []` initialization, the `includes` duplicate check, and
the `push`. -/
def addFavCore (username projectId : String) : List User → FavAddOutcome
  | [] => .noUser
  | u :: rest =>
    if u.username == username then
      let favs := u.favorites.getD []
      if favs.contains projectId then .duplicate
      else .added ({ u with favorites := some (favs ++ [projectId]) } :: rest)
    else
      match addFavCore username projectId rest with
      | .noUser => .noUser
      | .duplicate => .duplicate
      | .added rest2 => .added (u :: rest2)

/-- The `POST /api/favorites` handler. The source checks user existence, then
project existence (real or demo), then the duplicate check, then push and
persist; the `.noUser` fallback in the last match is unreachable because user
existence was already established. -/
def addFavorite (username projectId : String) (users : List User)
    (projects : List Project) : Resp × List User :=
  if username = "" ∨ projectId = "" then
    (⟨400, false, "Username and project ID are required."⟩, users)
  else if existsUsername username users = false then
    (⟨404, false, "User not found."⟩, users)
  else if projectResolves projectId projects = false then
    (⟨404, false, "Project not found."⟩, users)
  else
    match addFavCore username projectId users with
    | .noUser => (⟨404, false, "User not found."⟩, users)
    | .duplicate => (⟨409, false, "Project already in favorites."⟩, users)
    | .added users2 => (⟨200, true, "Project added to favorites!"⟩, users2)

/-- `favorites.splice(indexOf(projectId), 1)`: removes the first occurrence. -/
def removeFirstFav (projectId : String) : List String → List String
  | [] => []
  | x :: rest => if x == projectId then rest else x :: removeFirstFav projectId rest

/-- Outcome of the favorites-membership part of the remove-favorite handler.
`noFavs` is the `!users[userIndex].favorites` branch, which fires only when
the `favorites` key is absent (an empty array is truthy in JS); `notIn` is
`indexOf === -1`. -/
inductive FavRemOutcome where
  | noUser : FavRemOutcome
  | noFavs : FavRemOutcome
  | notIn : FavRemOutcome
  | removed : List User → FavRemOutcome
deriving DecidableEq

/-- First-match traversal for the remove-favorite handler's user lookup,
favorites-presence check, `indexOf` check and `splice`. -/
def remFavCore (username projectId : String) : List User → FavRemOutcome
  | [] => .noUser
  | u :: rest =>
    if u.username == username then
      match u.favorites with
      | none => .noFavs
      | some favs =>
        if favs.contains projectId then
          .removed ({ u with favorites := some (removeFirstFav projectId favs) } :: rest)
        else .notIn
    else
      match remFavCore username projectId rest with
      | .noUser => .noUser
      | .noFavs => .noFavs
      | .notIn => .notIn
      | .removed rest2 => .removed (u :: rest2)

/-- The `DELETE /api/favorites/:projectId` handler. -/
def removeFavorite (username projectId : String) (users : List User) :
    Resp × List User :=
  if username = "" then
    (⟨400, false, "Username is required."⟩, users)
  else
    match remFavCore username projectId users with
    | .noUser => (⟨404, false, "User not found."⟩, users)
    | .noFavs => (⟨404, false, "No favorites found."⟩, users)
    | .notIn => (⟨404, false, "Project not in favorites."⟩, users)
    | .removed users2 => (⟨200, true, "Project removed from favorites!"⟩, users2)

/-- The spec's phrase for the signup response payload, for comparison with
`signupRespUser`: the created user minus the `password` field and minus the
`profile` field, i.e. all remaining stored fields, as a JS object in storage
order (a fresh user has no `favorites` key). -/
def userMinusPasswordAndProfile (u : User) : List (String × String) :=
  [("id", u.id), ("firstname", u.firstname), ("lastname", u.lastname),
   ("username", u.username), ("email", u.email), ("userType", u.userType),
   ("createdAt", u.createdAt)]

/-- A concrete user record used by witnesses and counterexamples. -/
def sampleUser (username email password : String) (favorites : Option (List String)) : User :=
  { id := "100"
    firstname := "Ada"
    lastname := "L"
    username := username
    email := email
    password := password
    userType := "entrepreneur"
    createdAt := "2025-01-01T00:00:00.000Z"
    profile := { bio := "", skills := [], interests := [], location := "", website := "" }
    favorites := favorites }

/-- A concrete project record used by witnesses and counterexamples. -/
def sampleProject (id creator : String) (likes : Nat) : Project :=
  { id := id
    title := "T"
    description := "D"
    category := "tech"
    funding := 0
    creator := creator
    lookingForInvestment := false
    status := "active"
    createdAt := "2025-01-02T00:00:00.000Z"
    investors := []
    likes := likes }

/-- A model of the opaque hash/verify pair: `modelVerify p h` holds iff `h`
is the model hash of `p`. Used only to instantiate the `verify` parameter in
counterexamples and witnesses. -/
def modelVerify (plaintext storedHash : String) : Bool :=
  storedHash == "hash:" ++ plaintext

/-- A concrete valid signup request used by witnesses and counterexamples. -/
def adaReq : SignupReq :=
  ⟨"Ada", "L", "ada", "ada@x.com", "secret1", "entrepreneur"⟩

/-- N sequential like operations on the same id: each step runs the like
handler and passes the persisted collection to the next. -/
def iterLike (id : String) : Nat → List Project → List Project
  | 0, ps => ps
  | n + 1, ps => iterLike id n (likeProject id ps).2

/-- The likes field of the stored project with the given id, if any (first
match, as every read path does). -/
def getLikes (id : String) (ps : List Project) : Option Nat :=
  (ps.find? (fun p => p.id == id)).map (fun p => p.likes)

theorem existsUsername_iff (n : String) (us : List User) :
    existsUsername n us = true ↔ ∃ u ∈ us, u.username = n := by
  simp [existsUsername, List.any_eq_true]

theorem existsEmail_iff (e : String) (us : List User) :
    existsEmail e us = true ↔ ∃ u ∈ us, u.email = e := by
  simp [existsEmail, List.any_eq_true]

theorem loginFind_eq_none_iff (s : String) (us : List User) :
    loginFind s us = none ↔ ¬ ∃ u ∈ us, u.username = s ∨ u.email = s := by
  simp [loginFind, List.find?_eq_none]

/-- On the success path, signup appends exactly the new user and returns the
four-field response object. -/
theorem signup_success (req : SignupReq) (hp nid now : String) (users : List User)
    (hv : signupValid req)
    (hnu : ∀ u ∈ users, u.username ≠ req.username)
    (hne : ∀ u ∈ users, u.email ≠ req.email) :
    signup req hp nid now users =
      (⟨⟨200, true, "User created successfully!"⟩,
        some (signupRespUser (mkNewUser req hp nid now))⟩,
       users ++ [mkNewUser req hp nid now]) := by
  obtain ⟨h1, h2, h3, h4, h5, h6, h7, h8, h9⟩ := hv
  have hU : existsUsername req.username users = false := by
    rw [Bool.eq_false_iff, Ne, existsUsername_iff]
    rintro ⟨u, hu, heq⟩
    exact hnu u hu heq
  have hE : existsEmail req.email users = false := by
    rw [Bool.eq_false_iff, Ne, existsEmail_iff]
    rintro ⟨u, hu, heq⟩
    exact hne u hu heq
  unfold signup
  rw [if_neg (by tauto), if_neg (by simp [h7]), if_neg (by simp [h8]),
      if_neg (by rcases h9 with h | h <;> simp [h]), if_neg (by simp [hU]),
      if_neg (by simp [hE])]

theorem removeFirstProject_eq_none (id : String) (ps : List Project)
    (h : ∀ p ∈ ps, p.id ≠ id) : removeFirstProject id ps = none := by
  induction ps with
  | nil => rfl
  | cons p rest ih =>
    have hp : p.id ≠ id := h p (by simp)
    simp only [removeFirstProject]
    rw [if_neg (by simpa using hp), ih (fun q hq => h q (by simp [hq]))]

theorem removeFirstProject_append (id : String) (pre suf : List Project) (p : Project)
    (hpre : ∀ q ∈ pre, q.id ≠ id) (hp : p.id = id) :
    removeFirstProject id (pre ++ p :: suf) = some (p, pre ++ suf) := by
  induction pre with
  | nil => simp [removeFirstProject, hp]
  | cons q rest ih =>
    have hq : q.id ≠ id := hpre q (by simp)
    simp only [List.cons_append, removeFirstProject, List.append_eq]
    rw [if_neg (by simpa using hq), ih (fun r hr => hpre r (by simp [hr]))]

theorem likeList_eq_none (id : String) (ps : List Project)
    (h : ∀ p ∈ ps, p.id ≠ id) : likeList id ps = none := by
  induction ps with
  | nil => rfl
  | cons p rest ih =>
    have hp : p.id ≠ id := h p (by simp)
    simp only [likeList]
    rw [if_neg (by simpa using hp), ih (fun q hq => h q (by simp [hq]))]

theorem likeList_append (id : String) (pre suf : List Project) (p : Project)
    (hpre : ∀ q ∈ pre, q.id ≠ id) (hp : p.id = id) :
    likeList id (pre ++ p :: suf) =
      some (p.likes + 1, pre ++ { p with likes := p.likes + 1 } :: suf) := by
  induction pre with
  | nil => simp [likeList, hp]
  | cons q rest ih =>
    have hq : q.id ≠ id := hpre q (by simp)
    simp only [List.cons_append, likeList, List.append_eq]
    rw [if_neg (by simpa using hq), ih (fun r hr => hpre r (by simp [hr]))]

theorem updateProfileCore_append (username : String) (pp : PartialProfile)
    (pre suf : List User) (u : User)
    (hpre : ∀ v ∈ pre, v.username ≠ username) (hu : u.username = username) :
    updateProfileCore username pp (pre ++ u :: suf) =
      some (pre ++ { u with profile := mergeProfile u.profile pp } :: suf) := by
  induction pre with
  | nil => simp [updateProfileCore, hu]
  | cons v rest ih =>
    have hv : v.username ≠ username := hpre v (by simp)
    simp only [List.cons_append, updateProfileCore, List.append_eq]
    rw [if_neg (by simpa using hv), ih (fun w hw => hpre w (by simp [hw]))]



/-- C1 counterexample: a signup request with an empty `firstname` whose
username already occurs in the stored collection fails with 400 (validation
error), not 409 (Conflict): validation runs before the uniqueness checks. -/
theorem C1_counterexample :
    (∃ u ∈ [sampleUser "ada" "ada@x.com" "H" none], u.username = "ada") ∧
    (signup ⟨"", "L", "ada", "new@x.com", "secret1", "investor"⟩ "H2" "101" "t"
        [sampleUser "ada" "ada@x.com" "H" none]).1.resp.status = 400 ∧
    (signup ⟨"", "L", "ada", "new@x.com", "secret1", "investor"⟩ "H2" "101" "t"
        [sampleUser "ada" "ada@x.com" "H" none]).1.resp.status ≠ 409 := by
  decide

/-- C1 (amended): for every signup request that passes the validation stage
(all six fields non-empty, valid email format, password length ≥ 6, userType
one of the two allowed values) and whose username or email already occurs in
the stored user collection, the operation fails with Conflict (409) and the
stored user collection is unchanged. -/
theorem C1_conflict_signup_unchanged (req : SignupReq) (hp nid now : String)
    (users : List User) (hv : signupValid req)
    (hdup : (∃ u ∈ users, u.username = req.username) ∨ (∃ u ∈ users, u.email = req.email)) :
    (signup req hp nid now users).1.resp.status = 409 ∧
    (signup req hp nid now users).2 = users := by
  obtain ⟨h1, h2, h3, h4, h5, h6, h7, h8, h9⟩ := hv
  unfold signup
  rw [if_neg (by tauto), if_neg (by simp [h7]), if_neg (by simp [h8]),
      if_neg (by rcases h9 with h | h <;> simp [h])]
  by_cases hU : existsUsername req.username users = true
  · rw [if_pos hU]
    exact ⟨rfl, rfl⟩
  · rw [if_neg hU]
    have hE : existsEmail req.email users = true := by
      rcases hdup with h | h
      · exact absurd ((existsUsername_iff _ _).mpr h) hU
      · exact (existsEmail_iff _ _).mpr h
    rw [if_pos hE]
    exact ⟨rfl, rfl⟩

/-- C1 witness: a valid request whose username is already stored gets 409 and
leaves the collection unchanged. -/
theorem C1_witness :
    signupValid ⟨"Ada", "L", "ada", "new@x.com", "secret1", "investor"⟩ ∧
    (signup ⟨"Ada", "L", "ada", "new@x.com", "secret1", "investor"⟩ "H2" "101" "t"
        [sampleUser "ada" "ada@x.com" "H" none]).1.resp.status = 409 ∧
    (signup ⟨"Ada", "L", "ada", "new@x.com", "secret1", "investor"⟩ "H2" "101" "t"
        [sampleUser "ada" "ada@x.com" "H" none]).2 =
      [sampleUser "ada" "ada@x.com" "H" none] := by
  refine ⟨by decide, ?_⟩
  exact C1_conflict_signup_unchanged _ "H2" "101" "t" _ (by decide)
    (Or.inl ⟨sampleUser "ada" "ada@x.com" "H" none, by simp, by decide⟩)

/-- C2 counterexample: (a) with an empty collection, a login that matches no
user returns status 401, not 404 (NotFound); (b) when one stored user's
username equals another stored user's email, the handler verifies only
against the first match, so the claim's existential success condition holds
while the login fails. -/
theorem C2_counterexample :
    ((login modelVerify "a" "secret" []).1.resp.status = 401 ∧
      (login modelVerify "a" "secret" []).1.resp.status ≠ 404) ∧
    ((∃ u ∈ [sampleUser "x@y.z" "a@b.c" "other" none,
              sampleUser "bob" "x@y.z" "hash:pw" none],
        (u.username = "x@y.z" ∨ u.email = "x@y.z") ∧ modelVerify "pw" u.password = true) ∧
      (login modelVerify "x@y.z" "pw"
        [sampleUser "x@y.z" "a@b.c" "other" none,
         sampleUser "bob" "x@y.z" "hash:pw" none]).1.resp.success = false) := by
  decide

/-- C2 (amended): for every login request with non-empty fields, the user
collection is never mutated; if no stored user's username or email equals
usernameOrEmail, the handler fails with status 401 and message
"User not found."; otherwise, with u the first matching stored user, it fails
with status 401 and message "Incorrect password." when the hash verification
against u's stored hash fails, and otherwise succeeds returning u's id,
username, firstname, userType and profile, with no password field. -/
theorem C2_login_first_match (verify : String → String → Bool)
    (uoe pw : String) (users : List User)
    (h1 : uoe ≠ "") (h2 : pw ≠ "") :
    (login verify uoe pw users).2 = users ∧
    ((¬ ∃ u ∈ users, u.username = uoe ∨ u.email = uoe) →
      (login verify uoe pw users).1 = ⟨⟨401, false, "User not found."⟩, none⟩) ∧
    (∀ u, loginFind uoe users = some u →
      (verify pw u.password = false →
        (login verify uoe pw users).1 = ⟨⟨401, false, "Incorrect password."⟩, none⟩) ∧
      (verify pw u.password = true →
        (login verify uoe pw users).1 =
          ⟨⟨200, true, "Login successful!"⟩,
           some ⟨u.id, u.username, u.firstname, u.userType, u.profile⟩⟩)) := by
  have hval : ¬ (uoe = "" ∨ pw = "") := by tauto
  refine ⟨?_, ?_, ?_⟩
  · unfold login
    rw [if_neg hval]
    cases h : loginFind uoe users with
    | none => rfl
    | some u =>
      by_cases hv : verify pw u.password = false
      · simp [hv]
      · simp [hv]
  · intro hno
    unfold login
    rw [if_neg hval, (loginFind_eq_none_iff uoe users).mpr hno]
  · intro u hu
    constructor
    · intro hv
      unfold login
      rw [if_neg hval, hu]
      simp [hv]
    · intro hv
      unfold login
      rw [if_neg hval, hu]
      simp [hv]

/-- C2 witness: exercises all three branches of the amended claim at concrete
inputs. -/
theorem C2_witness :
    (("zed" ≠ "" ∧ "secret1" ≠ "") ∧
      (login modelVerify "zed" "secret1"
        [sampleUser "ada" "a@b.c" "hash:secret1" none]).1 =
        ⟨⟨401, false, "User not found."⟩, none⟩) ∧
    (login modelVerify "ada" "wrong1" [sampleUser "ada" "a@b.c" "hash:secret1" none]).1 =
      ⟨⟨401, false, "Incorrect password."⟩, none⟩ ∧
    (login modelVerify "ada" "secret1" [sampleUser "ada" "a@b.c" "hash:secret1" none]).1 =
      ⟨⟨200, true, "Login successful!"⟩,
       some ⟨"100", "ada", "Ada", "entrepreneur", ⟨"", [], [], "", ""⟩⟩⟩ ∧
    (login modelVerify "ada" "secret1" [sampleUser "ada" "a@b.c" "hash:secret1" none]).2 =
      [sampleUser "ada" "a@b.c" "hash:secret1" none] := by
  have hA := C2_login_first_match modelVerify "zed" "secret1"
    [sampleUser "ada" "a@b.c" "hash:secret1" none] (by decide) (by decide)
  have hB := C2_login_first_match modelVerify "ada" "wrong1"
    [sampleUser "ada" "a@b.c" "hash:secret1" none] (by decide) (by decide)
  have hC := C2_login_first_match modelVerify "ada" "secret1"
    [sampleUser "ada" "a@b.c" "hash:secret1" none] (by decide) (by decide)
  refine ⟨⟨⟨by decide, by decide⟩, hA.2.1 (by decide)⟩, ?_, ?_, hC.1⟩
  · exact (hB.2.2 (sampleUser "ada" "a@b.c" "hash:secret1" none) (by decide)).1 (by decide)
  · exact ((hC.2.2 (sampleUser "ada" "a@b.c" "hash:secret1" none) (by decide)).2 (by decide)).trans
      (by decide)

/-- C3 counterexample: with an empty user collection, project creation with
username "ghost" succeeds and the stored record's creator references no
existing user — the handler never reads the user collection. -/
theorem C3_counterexample :
    (createProject ⟨"T", "D", "ghost", none, none, none⟩ "1" "t" []).1.resp.success = true ∧
    (createProject ⟨"T", "D", "ghost", none, none, none⟩ "1" "t" []).2 =
      [mkNewProject ⟨"T", "D", "ghost", none, none, none⟩ "1" "t"] ∧
    (mkNewProject ⟨"T", "D", "ghost", none, none, none⟩ "1" "t").creator = "ghost" ∧
    ¬ ∃ u ∈ ([] : List User), u.username = "ghost" := by
  decide

/-- C3 (amended): project creation does not validate the creator against the
user collection: for every request with non-empty title, description and
username, creation succeeds and the appended record's creator is the supplied
username, regardless of which users are stored. -/
theorem C3_create_ignores_users (req : CreateProjectReq) (nid now : String)
    (projects : List Project)
    (h1 : req.title ≠ "") (h2 : req.description ≠ "") (h3 : req.username ≠ "") :
    (createProject req nid now projects).1.resp.success = true ∧
    (createProject req nid now projects).1.project = some (mkNewProject req nid now) ∧
    (mkNewProject req nid now).creator = req.username ∧
    (createProject req nid now projects).2 = projects ++ [mkNewProject req nid now] := by
  unfold createProject
  rw [if_neg (by tauto)]
  exact ⟨rfl, rfl, rfl, rfl⟩

/-- C3 witness: concrete successful creation via the amended theorem. -/
theorem C3_witness :
    (createProject ⟨"T2", "D2", "ada", none, none, none⟩ "2" "t" []).1.resp.success = true ∧
    (createProject ⟨"T2", "D2", "ada", none, none, none⟩ "2" "t" []).2 =
      [mkNewProject ⟨"T2", "D2", "ada", none, none, none⟩ "2" "t"] := by
  have h := C3_create_ignores_users ⟨"T2", "D2", "ada", none, none, none⟩ "2" "t" []
    (by decide) (by decide) (by decide)
  exact ⟨h.1, h.2.2.2⟩

/-- C4 (confirmed): the delete handler fails validation (400) when the
requesting username is absent; fails NotFound (404), leaving the collection
unchanged, when no stored project has the id; on the first stored project with
the id, fails Forbidden (403) when its creator differs from the requesting
username, the collection unchanged and the project still present; and when
the creator matches, removes exactly that record and persists the rest. -/
theorem C4_delete_project (id username : String) (projects : List Project) :
    (username = "" →
      deleteProject id username projects =
        (⟨400, false, "Username is required."⟩, projects)) ∧
    (username ≠ "" → (∀ p ∈ projects, p.id ≠ id) →
      deleteProject id username projects =
        (⟨404, false, "Project not found."⟩, projects)) ∧
    (username ≠ "" → ∀ pre p suf, projects = pre ++ p :: suf →
      (∀ q ∈ pre, q.id ≠ id) → p.id = id →
      ((p.creator ≠ username →
        deleteProject id username projects =
          (⟨403, false, "You can only delete your own projects."⟩, projects) ∧
        p ∈ (deleteProject id username projects).2) ∧
       (p.creator = username →
        deleteProject id username projects =
          (⟨200, true, "Project deleted successfully!"⟩, pre ++ suf)))) := by
  refine ⟨?_, ?_, ?_⟩
  · intro h
    unfold deleteProject
    rw [if_pos h]
  · intro h hnone
    unfold deleteProject
    rw [if_neg h, removeFirstProject_eq_none id projects hnone]
  · intro h pre p suf hdecomp hpre hp
    subst hdecomp
    have hrm := removeFirstProject_append id pre suf p hpre hp
    constructor
    · intro hc
      have heq : deleteProject id username (pre ++ p :: suf) =
          (⟨403, false, "You can only delete your own projects."⟩, pre ++ p :: suf) := by
        unfold deleteProject
        rw [if_neg h, hrm]
        simp [hc]
      refine ⟨heq, ?_⟩
      rw [heq]
      simp
    · intro hc
      unfold deleteProject
      rw [if_neg h, hrm]
      simp [hc]

/-- C4 witness: exercises the 400, 404, 403 and 200 branches at concrete
inputs. -/
theorem C4_witness :
    deleteProject "p1" "" [sampleProject "p1" "ada" 0] =
      (⟨400, false, "Username is required."⟩, [sampleProject "p1" "ada" 0]) ∧
    deleteProject "p9" "eve" [sampleProject "p1" "ada" 0] =
      (⟨404, false, "Project not found."⟩, [sampleProject "p1" "ada" 0]) ∧
    (deleteProject "p1" "eve" [sampleProject "p1" "ada" 0] =
      (⟨403, false, "You can only delete your own projects."⟩, [sampleProject "p1" "ada" 0]) ∧
     sampleProject "p1" "ada" 0 ∈ (deleteProject "p1" "eve" [sampleProject "p1" "ada" 0]).2) ∧
    deleteProject "p1" "ada" [sampleProject "p1" "ada" 0] =
      (⟨200, true, "Project deleted successfully!"⟩, []) := by
  have h400 := (C4_delete_project "p1" "" [sampleProject "p1" "ada" 0]).1 rfl
  have h404 := (C4_delete_project "p9" "eve" [sampleProject "p1" "ada" 0]).2.1
    (by decide) (by decide)
  have h403 := ((C4_delete_project "p1" "eve" [sampleProject "p1" "ada" 0]).2.2
    (by decide) [] (sampleProject "p1" "ada" 0) [] rfl (by simp) (by decide)).1 (by decide)
  have h200 := ((C4_delete_project "p1" "ada" [sampleProject "p1" "ada" 0]).2.2
    (by decide) [] (sampleProject "p1" "ada" 0) [] rfl (by simp) (by decide)).2 (by decide)
  exact ⟨h400, h404, h403, h200⟩

theorem likeProject_append (id : String) (pre suf : List Project) (p : Project)
    (hpre : ∀ q ∈ pre, q.id ≠ id) (hp : p.id = id) :
    likeProject id (pre ++ p :: suf) =
      (⟨⟨200, true, "Project liked!"⟩, some (p.likes + 1)⟩,
       pre ++ { p with likes := p.likes + 1 } :: suf) := by
  unfold likeProject
  rw [likeList_append id pre suf p hpre hp]

theorem iterLike_append (id : String) (pre suf : List Project)
    (hpre : ∀ q ∈ pre, q.id ≠ id) :
    ∀ (n : Nat) (p : Project), p.id = id →
      iterLike id n (pre ++ p :: suf) =
        pre ++ { p with likes := p.likes + n } :: suf := by
  intro n
  induction n with
  | zero =>
    intro p hp
    rfl
  | succ n ih =>
    intro p hp
    show iterLike id n (likeProject id (pre ++ p :: suf)).2 = _
    rw [likeProject_append id pre suf p hpre hp]
    rw [ih { p with likes := p.likes + 1 } hp]
    have : p.likes + 1 + n = p.likes + (n + 1) := by omega
    simp only [this]

theorem getLikes_append (id : String) (pre suf : List Project) (p : Project)
    (hpre : ∀ q ∈ pre, q.id ≠ id) (hp : p.id = id) :
    getLikes id (pre ++ p :: suf) = some p.likes := by
  induction pre with
  | nil => simp [getLikes, hp]
  | cons q rest ih =>
    have hq : q.id ≠ id := hpre q (by simp)
    unfold getLikes at ih ⊢
    rw [List.cons_append, List.find?_cons_of_neg _ (by simpa using hq)]
    exact ih (fun r hr => hpre r (by simp [hr]))

/-- C5 (confirmed): for an id matching no stored project, the like handler
fails NotFound (404) and changes nothing; for the stored project with a
matching id, one like increments its likes by exactly 1, persists the updated
collection (all other records unchanged in place), and returns the new count;
and N sequential likes increase the stored likes field by exactly N. -/
theorem C5_like_increments (id : String) (projects : List Project) :
    ((∀ p ∈ projects, p.id ≠ id) →
      likeProject id projects = (⟨⟨404, false, "Project not found."⟩, none⟩, projects)) ∧
    (∀ pre p suf, projects = pre ++ p :: suf → (∀ q ∈ pre, q.id ≠ id) → p.id = id →
      likeProject id projects =
        (⟨⟨200, true, "Project liked!"⟩, some (p.likes + 1)⟩,
         pre ++ { p with likes := p.likes + 1 } :: suf) ∧
      ∀ n : Nat, getLikes id (iterLike id n projects) = some (p.likes + n)) := by
  constructor
  · intro h
    unfold likeProject
    rw [likeList_eq_none id projects h]
  · intro pre p suf hdecomp hpre hp
    subst hdecomp
    refine ⟨likeProject_append id pre suf p hpre hp, ?_⟩
    intro n
    rw [iterLike_append id pre suf hpre n p hp]
    exact getLikes_append id pre suf { p with likes := p.likes + n } hpre hp

/-- C5 witness: a missing id gives 404 and no change; three sequential likes
on a concrete project take its likes from 5 to 8. -/
theorem C5_witness :
    likeProject "p9" [sampleProject "p1" "ada" 5] =
      (⟨⟨404, false, "Project not found."⟩, none⟩, [sampleProject "p1" "ada" 5]) ∧
    likeProject "p1" [sampleProject "p1" "ada" 5] =
      (⟨⟨200, true, "Project liked!"⟩, some 6⟩,
       [{ sampleProject "p1" "ada" 5 with likes := 6 }]) ∧
    getLikes "p1" (iterLike "p1" 3 [sampleProject "p1" "ada" 5]) = some 8 := by
  have h404 := (C5_like_increments "p9" [sampleProject "p1" "ada" 5]).1 (by decide)
  have h := (C5_like_increments "p1" [sampleProject "p1" "ada" 5]).2
    [] (sampleProject "p1" "ada" 5) [] rfl (by simp) (by decide)
  exact ⟨h404, h.1, h.2 3⟩

/-- C6 (confirmed): for an existing user (the first stored user with the given
username), updateProfile succeeds, replaces exactly the profile keys present
in the partial profile, retains every absent profile key, and leaves every
non-profile field of that user and every other stored user unchanged. -/
theorem C6_update_profile_frame (username : String) (pp : PartialProfile)
    (users pre suf : List User) (u : User)
    (hdecomp : users = pre ++ u :: suf)
    (hpre : ∀ v ∈ pre, v.username ≠ username) (hu : u.username = username) :
    updateProfile username pp users =
      (⟨200, true, "Profile updated successfully!"⟩,
       pre ++ { u with profile := mergeProfile u.profile pp } :: suf) ∧
    (pp.bio = none → (mergeProfile u.profile pp).bio = u.profile.bio) ∧
    (∀ x, pp.bio = some x → (mergeProfile u.profile pp).bio = x) ∧
    (pp.skills = none → (mergeProfile u.profile pp).skills = u.profile.skills) ∧
    (∀ x, pp.skills = some x → (mergeProfile u.profile pp).skills = x) ∧
    (pp.interests = none → (mergeProfile u.profile pp).interests = u.profile.interests) ∧
    (∀ x, pp.interests = some x → (mergeProfile u.profile pp).interests = x) ∧
    (pp.location = none → (mergeProfile u.profile pp).location = u.profile.location) ∧
    (∀ x, pp.location = some x → (mergeProfile u.profile pp).location = x) ∧
    (pp.website = none → (mergeProfile u.profile pp).website = u.profile.website) ∧
    (∀ x, pp.website = some x → (mergeProfile u.profile pp).website = x) ∧
    ({ u with profile := mergeProfile u.profile pp }).id = u.id ∧
    ({ u with profile := mergeProfile u.profile pp }).firstname = u.firstname ∧
    ({ u with profile := mergeProfile u.profile pp }).lastname = u.lastname ∧
    ({ u with profile := mergeProfile u.profile pp }).username = u.username ∧
    ({ u with profile := mergeProfile u.profile pp }).email = u.email ∧
    ({ u with profile := mergeProfile u.profile pp }).password = u.password ∧
    ({ u with profile := mergeProfile u.profile pp }).userType = u.userType ∧
    ({ u with profile := mergeProfile u.profile pp }).createdAt = u.createdAt ∧
    ({ u with profile := mergeProfile u.profile pp }).favorites = u.favorites := by
  subst hdecomp
  refine ⟨?_, ?_, ?_, ?_, ?_, ?_, ?_, ?_, ?_, ?_, ?_, rfl, rfl, rfl, rfl, rfl, rfl,
    rfl, rfl, rfl⟩
  · unfold updateProfile
    rw [updateProfileCore_append username pp pre suf u hpre hu]
  all_goals
    first
      | (intro h; simp [mergeProfile, h])
      | (intro x h; simp [mergeProfile, h])

/-- C6 witness: updating only the bio of a user with existing skills changes
the bio and leaves skills (and every other field) unchanged. -/
theorem C6_witness :
    updateProfile "ada" ⟨some "x", none, none, none, none⟩
        [{ sampleUser "ada" "a@b.c" "H" none with
            profile := ⟨"old", ["lean"], [], "", ""⟩ }] =
      (⟨200, true, "Profile updated successfully!"⟩,
       [{ sampleUser "ada" "a@b.c" "H" none with
            profile := ⟨"x", ["lean"], [], "", ""⟩ }]) := by
  have h := C6_update_profile_frame "ada" ⟨some "x", none, none, none, none⟩
    [{ sampleUser "ada" "a@b.c" "H" none with profile := ⟨"old", ["lean"], [], "", ""⟩ }]
    [] [] { sampleUser "ada" "a@b.c" "H" none with profile := ⟨"old", ["lean"], [], "", ""⟩ }
    rfl (by simp) (by decide)
  exact h.1.trans (by decide)

/-- C7 (confirmed): project creation with non-empty title, description and
username and no category, funding or lookingForInvestment supplied succeeds,
and the stored record has category "tech", funding 0, lookingForInvestment
false, status "active", empty investors and likes 0. -/
theorem C7_create_defaults (title desc username nid now : String)
    (projects : List Project)
    (h1 : title ≠ "") (h2 : desc ≠ "") (h3 : username ≠ "") :
    (createProject ⟨title, desc, username, none, none, none⟩ nid now projects).1.resp.success
        = true ∧
    ∃ p : Project,
      (createProject ⟨title, desc, username, none, none, none⟩ nid now projects).1.project
          = some p ∧
      p.category = "tech" ∧ p.funding = 0 ∧ p.lookingForInvestment = false ∧
      p.status = "active" ∧ p.investors = [] ∧ p.likes = 0 ∧
      (createProject ⟨title, desc, username, none, none, none⟩ nid now projects).2
          = projects ++ [p] := by
  unfold createProject
  rw [if_neg (by tauto)]
  exact ⟨rfl, mkNewProject ⟨title, desc, username, none, none, none⟩ nid now,
    rfl, rfl, rfl, rfl, rfl, rfl, rfl, rfl⟩

/-- C7 witness: concrete creation with all optional fields absent yields the
documented defaults. -/
theorem C7_witness :
    (createProject ⟨"T", "D", "ada", none, none, none⟩ "3" "t" []).1.resp.success = true ∧
    ∃ p : Project,
      (createProject ⟨"T", "D", "ada", none, none, none⟩ "3" "t" []).1.project = some p ∧
      p.category = "tech" ∧ p.funding = 0 ∧ p.lookingForInvestment = false ∧
      p.status = "active" ∧ p.investors = [] ∧ p.likes = 0 ∧
      (createProject ⟨"T", "D", "ada", none, none, none⟩ "3" "t" []).2 = [p] := by
  exact C7_create_defaults "T" "D" "ada" "3" "t" [] (by decide) (by decide) (by decide)

theorem addFavCore_duplicate (username projectId : String) (pre suf : List User)
    (u : User) (hpre : ∀ v ∈ pre, v.username ≠ username) (hu : u.username = username)
    (favs : List String) (hf : u.favorites = some favs) (hmem : projectId ∈ favs) :
    addFavCore username projectId (pre ++ u :: suf) = .duplicate := by
  induction pre with
  | nil =>
    simp only [List.nil_append, addFavCore]
    rw [if_pos (by simpa using hu), hf]
    simp only [Option.getD_some]
    rw [if_pos (by simpa using hmem)]
  | cons v rest ih =>
    have hv : v.username ≠ username := hpre v (by simp)
    simp only [List.cons_append, addFavCore, List.append_eq]
    rw [if_neg (by simpa using hv), ih (fun w hw => hpre w (by simp [hw]))]

theorem remFavCore_noFavs (username projectId : String) (pre suf : List User)
    (u : User) (hpre : ∀ v ∈ pre, v.username ≠ username) (hu : u.username = username)
    (hf : u.favorites = none) :
    remFavCore username projectId (pre ++ u :: suf) = .noFavs := by
  induction pre with
  | nil =>
    simp only [List.nil_append, remFavCore]
    rw [if_pos (by simpa using hu), hf]
  | cons v rest ih =>
    have hv : v.username ≠ username := hpre v (by simp)
    simp only [List.cons_append, remFavCore, List.append_eq]
    rw [if_neg (by simpa using hv), ih (fun w hw => hpre w (by simp [hw]))]

theorem remFavCore_notIn (username projectId : String) (pre suf : List User)
    (u : User) (hpre : ∀ v ∈ pre, v.username ≠ username) (hu : u.username = username)
    (favs : List String) (hf : u.favorites = some favs) (hmem : projectId ∉ favs) :
    remFavCore username projectId (pre ++ u :: suf) = .notIn := by
  induction pre with
  | nil =>
    simp only [List.nil_append, remFavCore]
    rw [if_pos (by simpa using hu), hf]
    simp only []
    rw [if_neg (by simpa using hmem)]
  | cons v rest ih =>
    have hv : v.username ≠ username := hpre v (by simp)
    simp only [List.cons_append, remFavCore, List.append_eq]
    rw [if_neg (by simpa using hv), ih (fun w hw => hpre w (by simp [hw]))]

/-- C8 counterexample: the add-favorite handler checks that the projectId
resolves to a real or demo project before the duplicate check, so a user whose
favorites list contains "p1" while no such project is stored (e.g. the project
was deleted) gets 404, not Conflict (409), when adding "p1" again. -/
theorem C8_counterexample :
    (sampleUser "ada" "a@b.c" "H" (some ["p1"])).favorites = some ["p1"] ∧
    (addFavorite "ada" "p1" [sampleUser "ada" "a@b.c" "H" (some ["p1"])] []).1 =
      ⟨404, false, "Project not found."⟩ ∧
    (addFavorite "ada" "p1" [sampleUser "ada" "a@b.c" "H" (some ["p1"])] []).1.status ≠ 409 := by
  decide

/-- C8 (amended): for the first stored user with the given (non-empty)
username, adding a non-empty projectId already present in that user's
favorites list fails with Conflict (409) and leaves the user collection (and
so the favorites list) unchanged, provided the projectId resolves to a real or
demo project (otherwise NotFound fires first); removing a projectId not
present in the favorites list fails with NotFound (404) and the collection is
unchanged, and so does removing when the favorites key is absent. -/
theorem C8_favorites_dup_and_missing (username projectId : String)
    (users pre suf : List User) (u : User) (projects : List Project)
    (hname : username ≠ "")
    (hdecomp : users = pre ++ u :: suf)
    (hpre : ∀ v ∈ pre, v.username ≠ username) (hu : u.username = username) :
    (projectId ≠ "" → projectResolves projectId projects = true →
      ∀ favs, u.favorites = some favs → projectId ∈ favs →
        addFavorite username projectId users projects =
          (⟨409, false, "Project already in favorites."⟩, users)) ∧
    (u.favorites = none →
      removeFavorite username projectId users =
        (⟨404, false, "No favorites found."⟩, users)) ∧
    (∀ favs, u.favorites = some favs → projectId ∉ favs →
      removeFavorite username projectId users =
        (⟨404, false, "Project not in favorites."⟩, users)) := by
  subst hdecomp
  have hexists : existsUsername username (pre ++ u :: suf) = true :=
    (existsUsername_iff _ _).mpr ⟨u, by simp, hu⟩
  refine ⟨?_, ?_, ?_⟩
  · intro hpid hres favs hf hmem
    unfold addFavorite
    rw [if_neg (by tauto), if_neg (by simp [hexists]), if_neg (by simp [hres]),
      addFavCore_duplicate username projectId pre suf u hpre hu favs hf hmem]
  · intro hf
    unfold removeFavorite
    rw [if_neg hname, remFavCore_noFavs username projectId pre suf u hpre hu hf]
  · intro favs hf hmem
    unfold removeFavorite
    rw [if_neg hname, remFavCore_notIn username projectId pre suf u hpre hu favs hf hmem]

/-- C8 witness: duplicate add of a resolving projectId gives 409 with the
collection unchanged; removing with no favorites key, and removing an id not
in the list, give 404 with the collection unchanged. -/
theorem C8_witness :
    addFavorite "ada" "p1" [sampleUser "ada" "a@b.c" "H" (some ["p1"])]
        [sampleProject "p1" "ada" 0] =
      (⟨409, false, "Project already in favorites."⟩,
       [sampleUser "ada" "a@b.c" "H" (some ["p1"])]) ∧
    removeFavorite "bob" "p1" [sampleUser "bob" "b@b.c" "H" none] =
      (⟨404, false, "No favorites found."⟩, [sampleUser "bob" "b@b.c" "H" none]) ∧
    removeFavorite "ada" "p9" [sampleUser "ada" "a@b.c" "H" (some ["p1"])] =
      (⟨404, false, "Project not in favorites."⟩,
       [sampleUser "ada" "a@b.c" "H" (some ["p1"])]) := by
  have hA := C8_favorites_dup_and_missing "ada" "p1"
    [sampleUser "ada" "a@b.c" "H" (some ["p1"])] [] []
    (sampleUser "ada" "a@b.c" "H" (some ["p1"])) [sampleProject "p1" "ada" 0]
    (by decide) rfl (by simp) (by decide)
  have hB := C8_favorites_dup_and_missing "bob" "p1"
    [sampleUser "bob" "b@b.c" "H" none] [] []
    (sampleUser "bob" "b@b.c" "H" none) [] (by decide) rfl (by simp) (by decide)
  have hC := C8_favorites_dup_and_missing "ada" "p9"
    [sampleUser "ada" "a@b.c" "H" (some ["p1"])] [] []
    (sampleUser "ada" "a@b.c" "H" (some ["p1"])) [] (by decide) rfl (by simp) (by decide)
  refine ⟨hA.1 (by decide) (by decide) ["p1"] (by decide) (by decide),
    hB.2.1 (by decide), hC.2.2 ["p1"] (by decide) (by decide)⟩

/-- C9 counterexample: a concrete successful signup whose response user object
has no "lastname" key, while the created user minus password and minus profile
does: the response is not the created user minus those two fields. -/
theorem C9_counterexample :
    (signup adaReq "HASH" "101" "t" []).1.resp.success = true ∧
    (signup adaReq "HASH" "101" "t" []).2 = [mkNewUser adaReq "HASH" "101" "t"] ∧
    ((signup adaReq "HASH" "101" "t" []).1.user.getD []).lookup "lastname" = none ∧
    (userMinusPasswordAndProfile (mkNewUser adaReq "HASH" "101" "t")).lookup "lastname" =
      some "L" := by
  decide

/-- C9 (amended): for every successful signup, the response user object
contains exactly the id, username, firstname and userType of the created
user: it has no password field and no profile field, but also omits the
stored lastname, email and createdAt fields. -/
theorem C9_signup_response_fields (req : SignupReq) (hp nid now : String)
    (users : List User) (hv : signupValid req)
    (hnu : ∀ u ∈ users, u.username ≠ req.username)
    (hne : ∀ u ∈ users, u.email ≠ req.email) :
    (signup req hp nid now users).2 = users ++ [mkNewUser req hp nid now] ∧
    (signup req hp nid now users).1.user =
      some (signupRespUser (mkNewUser req hp nid now)) ∧
    (signupRespUser (mkNewUser req hp nid now)).lookup "id" = some nid ∧
    (signupRespUser (mkNewUser req hp nid now)).lookup "username" = some req.username ∧
    (signupRespUser (mkNewUser req hp nid now)).lookup "firstname" = some req.firstname ∧
    (signupRespUser (mkNewUser req hp nid now)).lookup "userType" = some req.userType ∧
    (signupRespUser (mkNewUser req hp nid now)).lookup "password" = none ∧
    (signupRespUser (mkNewUser req hp nid now)).lookup "lastname" = none ∧
    (signupRespUser (mkNewUser req hp nid now)).lookup "email" = none ∧
    (signupRespUser (mkNewUser req hp nid now)).lookup "createdAt" = none := by
  have h := signup_success req hp nid now users hv hnu hne
  exact ⟨by rw [h], by rw [h], rfl, rfl, rfl, rfl, rfl, rfl, rfl, rfl⟩

/-- C9 witness: concrete successful signup through the amended theorem. -/
theorem C9_witness :
    (signup adaReq "HASH" "102" "t" []).2 = [mkNewUser adaReq "HASH" "102" "t"] ∧
    (signup adaReq "HASH" "102" "t" []).1.user =
      some (signupRespUser (mkNewUser adaReq "HASH" "102" "t")) ∧
    (signupRespUser (mkNewUser adaReq "HASH" "102" "t")).lookup "password" = none := by
  have h := C9_signup_response_fields adaReq "HASH" "102" "t" []
    (by decide) (by simp) (by simp)
  exact ⟨h.1, h.2.1, h.2.2.2.2.2.2.1⟩

/-- C10 (confirmed): the signup uniqueness checks compare usernames and emails
by exact case-sensitive string equality: two valid signups with distinct fresh
usernames whose emails differ as strings but agree letter-for-letter up to
case both succeed, and both records end up stored. -/
theorem C10_email_case_sensitive (r1 r2 : SignupReq)
    (hp1 hp2 nid1 nid2 t1 t2 : String) (users : List User)
    (hv1 : signupValid r1) (hv2 : signupValid r2)
    (hdiff : r1.email ≠ r2.email)
    (hcase : r1.email.toList.map Char.toLower = r2.email.toList.map Char.toLower)
    (hnu1 : ∀ u ∈ users, u.username ≠ r1.username)
    (hne1 : ∀ u ∈ users, u.email ≠ r1.email)
    (hnu2 : ∀ u ∈ users, u.username ≠ r2.username)
    (hne2 : ∀ u ∈ users, u.email ≠ r2.email)
    (hu12 : r1.username ≠ r2.username) :
    (signup r1 hp1 nid1 t1 users).1.resp.success = true ∧
    (signup r2 hp2 nid2 t2 (signup r1 hp1 nid1 t1 users).2).1.resp.success = true ∧
    (signup r2 hp2 nid2 t2 (signup r1 hp1 nid1 t1 users).2).2 =
      (users ++ [mkNewUser r1 hp1 nid1 t1]) ++ [mkNewUser r2 hp2 nid2 t2] := by
  have h1 := signup_success r1 hp1 nid1 t1 users hv1 hnu1 hne1
  have hstate : (signup r1 hp1 nid1 t1 users).2 = users ++ [mkNewUser r1 hp1 nid1 t1] := by
    rw [h1]
  have hnu2' : ∀ u ∈ users ++ [mkNewUser r1 hp1 nid1 t1], u.username ≠ r2.username := by
    intro u hu
    rcases List.mem_append.mp hu with h | h
    · exact hnu2 u h
    · have he : u = mkNewUser r1 hp1 nid1 t1 := by simpa using h
      subst he
      simpa [mkNewUser] using hu12
  have hne2' : ∀ u ∈ users ++ [mkNewUser r1 hp1 nid1 t1], u.email ≠ r2.email := by
    intro u hu
    rcases List.mem_append.mp hu with h | h
    · exact hne2 u h
    · have he : u = mkNewUser r1 hp1 nid1 t1 := by simpa using h
      subst he
      simpa [mkNewUser] using hdiff
  have h2 := signup_success r2 hp2 nid2 t2 (users ++ [mkNewUser r1 hp1 nid1 t1])
    hv2 hnu2' hne2'
  refine ⟨by rw [h1], ?_, ?_⟩
  · rw [hstate, h2]
  · rw [hstate, h2]

/-- C10 witness: two signups whose emails are "Ada@x.com" and "ada@x.com"
both succeed on an initially empty collection. -/
theorem C10_witness :
    (signup ⟨"Ada", "L", "ada", "Ada@x.com", "secret1", "entrepreneur"⟩
        "H1" "201" "t" []).1.resp.success = true ∧
    (signup ⟨"Bob", "M", "bob", "ada@x.com", "secret2", "investor"⟩ "H2" "202" "t"
      (signup ⟨"Ada", "L", "ada", "Ada@x.com", "secret1", "entrepreneur"⟩
        "H1" "201" "t" []).2).1.resp.success = true := by
  have h := C10_email_case_sensitive
    ⟨"Ada", "L", "ada", "Ada@x.com", "secret1", "entrepreneur"⟩
    ⟨"Bob", "M", "bob", "ada@x.com", "secret2", "investor"⟩
    "H1" "H2" "201" "202" "t" "t" []
    (by decide) (by decide) (by decide) (by decide)
    (by simp) (by simp) (by simp) (by simp) (by decide)
  exact ⟨h.1, h.2.1⟩
